import Mathlib

/-!
# Verification of the QR generator request handler

A shallow embedding of `src/app/api/qrcode/route.ts`: the request body
schema (`bodySchema`), the error-shaping helper (`zodErrorToResponse`)
and the `POST` handler, together with a model of the third-party QR
encode/render pipeline (the `qrcode` npm package is not part of this
repository's sources, so its behaviour is modelled from the spec's
section 4.2).

JSON values are embedded as an inductive type; JavaScript numbers are
modelled as rationals (`ℚ`), which is exact for every numeric literal a
JSON body can carry.
-/

set_option autoImplicit false

namespace QrGen

/-- A JSON value, as delivered by `req.json()`. -/
inductive Json where
  | null : Json
  | bool (b : Bool) : Json
  | num (q : ℚ) : Json
  | str (s : String) : Json
  | arr (elems : List Json) : Json
  | obj (fields : List (String × Json)) : Json

/-- Field lookup in a JSON object body (first binding wins, as in
JavaScript property access on parsed JSON). Non-objects have no fields. -/
def lookupStr : List (String × Json) → String → Option Json
  | [], _ => none
  | (k2, v) :: rest, k => if k2 = k then some v else lookupStr rest k

def Json.getField : Json → String → Option Json
  | .obj fields, k => lookupStr fields k
  | _, _ => none

/-- The name JavaScript / zod reports for a JSON value's type. -/
def Json.typeName : Json → String
  | .null => "null"
  | .bool _ => "boolean"
  | .num _ => "number"
  | .str _ => "string"
  | .arr _ => "array"
  | .obj _ => "object"

/-- One entry of `ZodError.issues`: a field path, a human message and a
coarse issue code. -/
structure ZodIssue where
  path : List String
  message : String
  code : String
deriving DecidableEq, Repr

/-! ## Link validation: `z.string().trim().url(...)` -/

/-- The whitespace characters stripped by JavaScript string trimming. -/
def isJsWhitespace (c : Char) : Bool :=
  c == ' ' || c == '\t' || c == '\n' || c == '\r' || c == '\x0b' || c == '\x0c'

/-- Trim whitespace from both ends of a character list. -/
def trimChars (cs : List Char) : List Char :=
  ((cs.dropWhile isJsWhitespace).reverse.dropWhile isJsWhitespace).reverse

/-- The `.trim()` transform of `bodySchema`: JavaScript
`String.prototype.trim`, stripping whitespace from both ends. -/
def jsTrim (s : String) : String :=
  ⟨trimChars s.data⟩

/-- Characters allowed after the first letter of a URL scheme. -/
def isSchemeTailChar (c : Char) : Bool :=
  c.isAlphanum || c == '+' || c == '-' || c == '.'

/-- Characters that terminate the host portion of a URL. -/
def isHostEndChar (c : Char) : Bool :=
  c == '/' || c == '?' || c == '#'

/-- Split a character list at the first occurrence of `://`, returning
the part before it and the part after it. -/
def splitSchemeAux (acc : List Char) : List Char → Option (List Char × List Char)
  | [] => none
  | ':' :: '/' :: '/' :: rest => some (acc.reverse, rest)
  | c :: rest => splitSchemeAux (c :: acc) rest

/-- Modelled from the spec: the zod `.url()` check (the zod library is not
in this repository's sources). Per the spec, the text "must parse as an
absolute URL (scheme + host at minimum)": a scheme (a letter followed by
letters, digits, `+`, `-`, `.`), the literal `://`, and a non-empty host. -/
def isAbsoluteUrl (s : String) : Bool :=
  match splitSchemeAux [] s.data with
  | none => false
  | some (scheme, rest) =>
      (match scheme with
       | [] => false
       | c :: cs => c.isAlpha && cs.all isSchemeTailChar)
      && !(rest.takeWhile (fun c => !isHostEndChar c)).isEmpty

/-- The `link` error message from `bodySchema` in `route.ts`. -/
def urlErrorMessage : String := "Please provide a valid URL (e.g., https://example.com)"

/-- Validate the `link` field: required string, trimmed, then checked as an
absolute URL. Mirrors `link: z.string().trim().url(...)` in `bodySchema`. -/
def checkLink : Option Json → Except (List ZodIssue) String
  | none => .error [⟨["link"], "Invalid input: expected string, received undefined", "invalid_type"⟩]
  | some (Json.str s) =>
      let t := jsTrim s
      if isAbsoluteUrl t then .ok t
      else .error [⟨["link"], urlErrorMessage, "invalid_format"⟩]
  | some j => .error [⟨["link"], "Invalid input: expected string, received " ++ j.typeName, "invalid_type"⟩]

/-! ## Size validation: `z.coerce.number(...).int(...).min(128).max(1024).optional()` -/

/-- Decimal digits to a natural number. -/
def digitsToNat (ds : List Char) : ℕ :=
  ds.foldl (fun a c => a * 10 + (c.toNat - 48)) 0

/-- Modelled from the spec: JavaScript `Number(string)` coercion for the
plain decimal forms (`"256"`, `"-3.5"`, `".5"`, `"5."`; the empty string
coerces to `0`). `none` stands for `NaN`. Exponent and hex forms are not
modelled; no claim exercises them. -/
def jsStringToNumber (s : String) : Option ℚ :=
  let t := jsTrim s
  if t = "" then some 0 else
  let (sign, rest) :=
    match t.data with
    | '-' :: cs => ((-1 : ℚ), cs)
    | '+' :: cs => ((1 : ℚ), cs)
    | cs => ((1 : ℚ), cs)
  let intPart := rest.takeWhile Char.isDigit
  let rest2 := rest.dropWhile Char.isDigit
  match rest2 with
  | [] => if intPart.isEmpty then none else some (sign * (digitsToNat intPart : ℚ))
  | '.' :: frac =>
      if frac.all Char.isDigit && !(intPart.isEmpty && frac.isEmpty) then
        some (sign * ((digitsToNat intPart : ℚ) + (digitsToNat frac : ℚ) / ((10 : ℚ) ^ frac.length)))
      else none
  | _ => none

/-- Modelled from the spec: JavaScript `ToNumber`, as used by
`z.coerce.number()`. Numbers pass through; `null` is `0`, booleans are
`0`/`1`, strings parse as decimals; composite values are treated as `NaN`
(`none`). -/
def jsToNumber : Json → Option ℚ
  | .num q => some q
  | .null => some 0
  | .bool b => some (if b then 1 else 0)
  | .str s => jsStringToNumber s
  | _ => none

/-- The three issues `bodySchema` can attach to a coerced size number:
non-integer, below the minimum, above the maximum. Checks are collected,
not fail-fast. Messages are the ones built in `route.ts`
(`Minimum size is ${minimum}` with minimum 128, etc.). -/
def sizeChecks (q : ℚ) : List ZodIssue :=
  (if q.den = 1 then [] else [⟨["size"], "Size must be an integer", "invalid_type"⟩])
  ++ (if q < 128 then [⟨["size"], "Minimum size is 128", "too_small"⟩] else [])
  ++ (if 1024 < q then [⟨["size"], "Maximum size is 1024", "too_big"⟩] else [])

/-- Validate the `size` field. An absent field passes as `none` (the
schema ends in `.optional()`); a present field is coerced to a number
(coercion failure is the `Size must be a number` issue) and then run
through the integer and bounds checks. -/
def checkSize : Option Json → Except (List ZodIssue) (Option ℤ)
  | none => .ok none
  | some j =>
      match jsToNumber j with
      | none => .error [⟨["size"], "Size must be a number", "invalid_type"⟩]
      | some q =>
          if (sizeChecks q).isEmpty then .ok (some q.num)
          else .error (sizeChecks q)

/-! ## The whole schema: `bodySchema.safeParse` -/

/-- The output of a successful parse: the trimmed link and the optional
integer size. -/
structure ParsedBody where
  link : String
  size : Option ℤ
deriving DecidableEq, Repr

/-- Combine the two independent field checks, collecting the issues of
both (zod checks every object field and concatenates their issues instead
of stopping at the first failing field). -/
def combineChecks (rl : Except (List ZodIssue) String)
    (rs : Except (List ZodIssue) (Option ℤ)) : Except (List ZodIssue) ParsedBody :=
  match rl, rs with
  | .ok l, .ok s => .ok ⟨l, s⟩
  | .error e1, .error e2 => .error (e1 ++ e2)
  | .error e1, .ok _ => .error e1
  | .ok _, .error e2 => .error e2

/-- `bodySchema.safeParse`: a non-object body fails with a root
`invalid_type` issue; an object body has its `link` and `size` fields
checked independently. -/
def safeParseBody : Json → Except (List ZodIssue) ParsedBody
  | .obj fields => combineChecks (checkLink (lookupStr fields "link")) (checkSize (lookupStr fields "size"))
  | j => .error [⟨[], "Invalid input: expected object, received " ++ j.typeName, "invalid_type"⟩]

/-! ## The QR encode/render pipeline

The `qrcode` npm package is not part of this repository's sources, so the
pipeline is modelled from the spec (section 4.2): smallest version whose
byte-mode capacity at the chosen error-correction level fits the text,
rasterization to an exactly `pixelSize × pixelSize` image with an additive
quiet-zone margin, PNG serialization and base64 transport encoding. -/

/-- QR error-correction levels. The handler always picks `M`. -/
inductive ECLevel where
  | L | M | Q | H
deriving DecidableEq, Repr

/-- The options object `route.ts` passes to `QRCode.toDataURL`:
`width: size ?? 320, margin: 2, errorCorrectionLevel: "M"`. -/
structure QROptions where
  width : ℕ
  margin : ℕ
  errorCorrectionLevel : ECLevel
deriving DecidableEq, Repr

/-- Modelled from the spec: byte-mode data capacities (in bytes) of QR
versions 1–40 at error-correction level Medium, used to choose "the
smallest QR version that can encode the input text as byte-mode data". -/
def byteCapacityM : List ℕ :=
  [14, 26, 42, 62, 84, 106, 122, 152, 180, 213,
   251, 287, 331, 362, 412, 450, 504, 560, 624, 666,
   711, 779, 857, 911, 997, 1059, 1125, 1190, 1264, 1370,
   1452, 1538, 1628, 1722, 1809, 1911, 1989, 2099, 2213, 2331]

/-- The smallest version (1–40) whose level-M byte capacity holds `len`
bytes; saturates at 40 for oversized payloads. -/
def qrVersion (len : ℕ) : ℕ :=
  match byteCapacityM.findIdx? (fun c => decide (len ≤ c)) with
  | some i => i + 1
  | none => 40

/-- The logical QR symbol: version, module-grid dimension, chosen
error-correction level, and the dark/light value of each module. -/
structure QrSymbol where
  version : ℕ
  size : ℕ
  ecLevel : ECLevel
  dark : ℕ → ℕ → Bool

/-- A deterministic fingerprint of the text, seeding the module grid. -/
def textSeed (text : String) : ℕ :=
  text.data.foldl (fun a c => (a * 131 + c.toNat) % 1000003) 7

/-- Modelled from the spec: `encode(text, errorCorrectionLevel) -> QrSymbol`.
Version selection follows the capacity table; the claims proved below
depend only on determinism and the grid dimension, so the standard's
Reed–Solomon codeword placement and mask selection are abstracted as a
fixed deterministic function of the text. -/
def encodeSymbol (text : String) (ecl : ECLevel) : QrSymbol :=
  let v := qrVersion text.utf8ByteSize
  { version := v
    size := 17 + 4 * v
    ecLevel := ecl
    dark := fun x y => (x * 31 + y * 17 + textSeed text) % 3 == 0 }

/-- The raster produced by the pipeline: a `width × height` grid of
dark/light pixels. -/
structure RenderedImage where
  width : ℕ
  height : ℕ
  pixels : List (List Bool)

/-- Modelled from the spec: scale the module grid (plus an additive
quiet-zone margin of `margin` modules on all four sides, drawn light) to
an output square of exactly `pixelSize × pixelSize` pixels. -/
def rasterize (sym : QrSymbol) (pixelSize margin : ℕ) : RenderedImage :=
  let total := sym.size + 2 * margin
  { width := pixelSize
    height := pixelSize
    pixels :=
      (List.range pixelSize).map (fun y =>
        (List.range pixelSize).map (fun x =>
          let mx := x * total / pixelSize
          let my := y * total / pixelSize
          if margin ≤ mx && mx < margin + sym.size && margin ≤ my && my < margin + sym.size then
            sym.dark (mx - margin) (my - margin)
          else false)) }

/-- Big-endian 4-byte encoding of a dimension. -/
def natBytes4 (n : ℕ) : List ℕ :=
  [n / 16777216 % 256, n / 65536 % 256, n / 256 % 256, n % 256]

/-- Modelled from the spec: PNG serialization of the raster (the PNG
container format is outside the spec's detail; this is an injective byte
serialization: signature, dimensions, then one byte per pixel). -/
def pngBytes (img : RenderedImage) : List ℕ :=
  [137, 80, 78, 71, 13, 10, 26, 10]
    ++ natBytes4 img.width ++ natBytes4 img.height
    ++ (img.pixels.map (fun row => row.map (fun b => if b then 0 else 255))).flatten

/-- The 64 characters of the standard base64 alphabet. -/
def base64Alphabet : List Char :=
  "ABCDEFGHIJKLMNOPQRSTUVWXYZabcdefghijklmnopqrstuvwxyz0123456789+/".data

def base64Char (n : ℕ) : Char :=
  (base64Alphabet.getD n 'A')

/-- Standard base64 of a byte list, with `=` padding. -/
def base64Chars : List ℕ → List Char
  | [] => []
  | [a] =>
      [base64Char (a / 4 % 64), base64Char (a % 4 * 16), '=', '=']
  | [a, b] =>
      [base64Char (a / 4 % 64), base64Char ((a % 4 * 16 + b / 16) % 64),
       base64Char (b % 16 * 4), '=']
  | a :: b :: c :: rest =>
      base64Char (a / 4 % 64) :: base64Char ((a % 4 * 16 + b / 16) % 64)
        :: base64Char ((b % 16 * 4 + c / 64) % 64) :: base64Char (c % 64)
        :: base64Chars rest

def base64String (bytes : List ℕ) : String :=
  ⟨base64Chars bytes⟩

/-- The full render of one request: encode the link at the options'
error-correction level, then rasterize at the options' width and margin. -/
def renderImage (text : String) (o : QROptions) : RenderedImage :=
  rasterize (encodeSymbol text o.errorCorrectionLevel) o.width o.margin

/-- The data-URL prefix every successful generation starts with. -/
def dataUrlPrefix : String := "data:image/png;base64,"

/-- Modelled from the spec: `QRCode.toDataURL` — render the image, PNG-
serialize it, base64-encode, and prepend the `data:image/png;base64,`
transport prefix. Deterministic: a plain function of text and options. -/
def qrToDataURL (text : String) (o : QROptions) : String :=
  dataUrlPrefix ++ base64String (pngBytes (renderImage text o))

/-! ## The HTTP responses and the `POST` handler -/

/-- An issue as shaped by `zodErrorToResponse`: the path array joined with
`"."` into a single string. -/
structure Issue where
  path : String
  message : String
  code : String
deriving DecidableEq, Repr

/-- `error.flatten().fieldErrors`: the field-keyed map from field name to
the list of messages of the issues on that field (issues with an empty
path are root errors and get no field key). -/
def fieldErrorsOf (issues : List ZodIssue) : List (String × List String) :=
  ((issues.filterMap (fun i => i.path.head?)).dedup).map
    (fun k => (k, (issues.filter (fun i => i.path.head? == some k)).map (fun i => i.message)))

/-- The three response shapes `POST` can produce, one per
`NextResponse.json` call site in `route.ts`. -/
inductive Response where
  | validationError (issues : List Issue) (fieldErrors : List (String × List String)) : Response
  | success (dataUrl : String) : Response
  | serverError : Response

/-- The HTTP status attached to each response. -/
def Response.status : Response → ℕ
  | .validationError _ _ => 400
  | .success _ => 200
  | .serverError => 500

def Response.isSuccess : Response → Bool
  | .success _ => true
  | _ => false

/-- The messages the response carries for one field (empty for responses
that are not validation errors). -/
def Response.fieldMessages : Response → String → List String
  | .validationError _ fes, k => (fes.lookup k).getD []
  | _, _ => []

/-- The joined paths of the response's issue list. -/
def Response.issuePaths : Response → List String
  | .validationError is _ => is.map Issue.path
  | _ => []

/-- `zodErrorToResponse` from `route.ts`: the issue list with each path
joined by `"."`, plus the flattened field-error map, under the message
`Validation error`. -/
def zodErrorToResponse (issues : List ZodIssue) : Response :=
  .validationError
    (issues.map (fun i => ⟨String.intercalate "." i.path, i.message, i.code⟩))
    (fieldErrorsOf issues)

/-- The JSON body of each response, mirroring the three
`NextResponse.json(...)` literals in `route.ts`. -/
def Response.toJsonBody : Response → Json
  | .validationError is fes =>
      .obj [("message", .str "Validation error"),
            ("issues", .arr (is.map (fun i =>
              .obj [("path", .str i.path), ("message", .str i.message), ("code", .str i.code)]))),
            ("fieldErrors", .obj (fes.map (fun p => (p.1, .arr (p.2.map Json.str)))))]
  | .success d => .obj [("dataUrl", .str d)]
  | .serverError => .obj [("message", .str "Failed to generate QR code")]

/-- The generation options built at the `QRCode.toDataURL` call site:
`width: size ?? 320, margin: 2, errorCorrectionLevel: "M"`. -/
def qrOpts (size : Option ℤ) : QROptions :=
  { width := (size.getD 320).toNat
    margin := 2
    errorCorrectionLevel := .M }

/-- The `POST` handler, parameterized by the generator so that the
`try`/`catch` path is expressible: validate, and on success call the
generator, mapping a thrown error to the 500 response. -/
def POSTwith (gen : String → QROptions → Except Unit String) (body : Json) : Response :=
  match safeParseBody body with
  | .error e => zodErrorToResponse e
  | .ok p =>
      match gen p.link (qrOpts p.size) with
      | .ok d => .success d
      | .error _ => .serverError

/-- The modelled `QRCode.toDataURL` as a generator: a total deterministic
function, so it never takes the error branch. -/
def qrGenerator : String → QROptions → Except Unit String :=
  fun text o => .ok (qrToDataURL text o)

/-- The `POST` handler of `route.ts` on an already-parsed body. -/
def POST (body : Json) : Response :=
  POSTwith qrGenerator body

/-- `await req.json().catch(() => null)`: a body that fails JSON parsing
(`none`) is replaced by JSON `null` before validation. -/
def handleRequest (raw : Option Json) : Response :=
  POST (raw.getD Json.null)

/-- The route module declares only constants and functions (no mutable
bindings), so a request leaves any ambient server state unchanged: the
handler threads the state through untouched and reads nothing from it. -/
def serve {σ : Type} (st : σ) (body : Json) : Response × σ :=
  (POST body, st)

/-! ## Small helpers for stating the properties -/

/-- An optional field of a request body object. -/
def optField (k : String) : Option Json → List (String × Json)
  | some j => [(k, j)]
  | none => []

/-- A request body `{ link?, size? }` with each field optionally present. -/
def mkBody (link size : Option Json) : Json :=
  .obj (optField "link" link ++ optField "size" size)

/-- The issues of a failed check (empty for a successful one). -/
def errIssues {α : Type} : Except (List ZodIssue) α → List ZodIssue
  | .error e => e
  | .ok _ => []

def isOkB {ε α : Type} : Except ε α → Bool
  | .ok _ => true
  | .error _ => false

/-- A response is well-shaped on success: its JSON body is exactly
`{ dataUrl: <string> }` and the string carries the PNG data-URL prefix. -/
def successShape (r : Response) : Prop :=
  match r with
  | .success d =>
      r.toJsonBody = Json.obj [("dataUrl", Json.str d)]
      ∧ ∃ rest, d = dataUrlPrefix ++ rest
  | _ => True

/-! ## Lemmas about the embedding -/

theorem lookup_mkBody_link (l : Json) (sz : Option Json) :
    lookupStr (optField "link" (some l) ++ optField "size" sz) "link" = some l := by
  cases sz <;> rfl

theorem lookup_mkBody_size (l sz : Option Json) :
    lookupStr (optField "link" l ++ optField "size" sz) "size" = sz := by
  cases l <;> cases sz <;> rfl

theorem safeParseBody_mkBody (l sz : Option Json) :
    safeParseBody (mkBody l sz) = combineChecks (checkLink l) (checkSize sz) := by
  cases l <;> cases sz <;> rfl

theorem isEmpty_false_of_mem {α : Type} {l : List α} {x : α} (h : x ∈ l) :
    l.isEmpty = false := by
  cases l with
  | nil => cases h
  | cons a as => rfl

theorem sizeChecks_path (q : ℚ) (i : ZodIssue) (h : i ∈ sizeChecks q) :
    i.path = ["size"] := by
  simp only [sizeChecks] at h
  rcases List.mem_append.mp h with h12 | h3
  · rcases List.mem_append.mp h12 with h1 | h2
    · split_ifs at h1 with hd
      · cases h1
      · rw [List.mem_singleton] at h1; subst h1; rfl
    · split_ifs at h2 with hm
      · rw [List.mem_singleton] at h2; subst h2; rfl
      · cases h2
  · split_ifs at h3 with hx
    · rw [List.mem_singleton] at h3; subst h3; rfl
    · cases h3

theorem lookup_map_self {α β : Type} [BEq α] [LawfulBEq α] (l : List α) (f : α → β) (k : α)
    (h : k ∈ l) : (l.map (fun x => (x, f x))).lookup k = some (f k) := by
  induction l with
  | nil => cases h
  | cons x xs ih =>
    by_cases hx : k = x
    · subst hx
      simp [List.lookup]
    · have hk : k ∈ xs := by
        rcases List.mem_cons.mp h with he | h2
        · exact absurd he hx
        · exact h2
      have hbeq : (k == x) = false := beq_eq_false_iff_ne.mpr hx
      simp [List.lookup, hbeq, ih hk]

theorem fieldErrorsOf_lookup (issues : List ZodIssue) (k : String) (i : ZodIssue)
    (hi : i ∈ issues) (hk : i.path.head? = some k) :
    ∃ ms, (fieldErrorsOf issues).lookup k = some ms ∧ ms.isEmpty = false := by
  have hkmem : k ∈ (issues.filterMap (fun j => j.path.head?)).dedup :=
    List.mem_dedup.mpr (List.mem_filterMap.mpr ⟨i, hi, hk⟩)
  refine ⟨_, lookup_map_self _ _ _ hkmem, ?_⟩
  have hif : i ∈ issues.filter (fun j => j.path.head? == some k) :=
    List.mem_filter.mpr ⟨hi, by simp [hk]⟩
  have hmem : i.message ∈ (issues.filter (fun j => j.path.head? == some k)).map
      (fun j => j.message) := List.mem_map.mpr ⟨i, hif, rfl⟩
  cases hmap : (issues.filter (fun j => j.path.head? == some k)).map (fun j => j.message) with
  | nil => rw [hmap] at hmem; cases hmem
  | cons a as => rfl

/-- A failed parse whose issue list contains an issue with head path `k`
yields a response whose `fieldErrors[k]` is non-empty. -/
theorem fieldMessages_of_issue (issues : List ZodIssue) (k : String) (i : ZodIssue)
    (hi : i ∈ issues) (hk : i.path.head? = some k) :
    ((zodErrorToResponse issues).fieldMessages k).isEmpty = false := by
  obtain ⟨ms, hms, hne⟩ := fieldErrorsOf_lookup issues k i hi hk
  simp [zodErrorToResponse, Response.fieldMessages, hms, hne]

theorem POST_of_parse_error (body : Json) (e : List ZodIssue)
    (h : safeParseBody body = .error e) : POST body = zodErrorToResponse e := by
  simp [POST, POSTwith, h]

theorem POST_of_parse_ok (body : Json) (p : ParsedBody)
    (h : safeParseBody body = .ok p) :
    POST body = .success (qrToDataURL p.link (qrOpts p.size)) := by
  simp [POST, POSTwith, h, qrGenerator]

/-- An invalid (non-URL) string in the `link` field makes the whole parse
fail, whatever the `size` field holds, and the URL-format issue is among
the collected issues. -/
theorem parse_error_of_invalid_link (u : String) (sz : Option Json)
    (hu : isAbsoluteUrl (jsTrim u) = false) :
    ∃ e, safeParseBody (mkBody (some (Json.str u)) sz) = .error e
      ∧ (⟨["link"], urlErrorMessage, "invalid_format"⟩ : ZodIssue) ∈ e := by
  have hlink : checkLink (some (Json.str u))
      = .error [⟨["link"], urlErrorMessage, "invalid_format"⟩] := by
    simp [checkLink, hu]
  rw [safeParseBody_mkBody, hlink]
  cases hs : checkSize sz with
  | ok v => exact ⟨_, rfl, List.mem_singleton.mpr rfl⟩
  | error e2 => exact ⟨_, rfl, List.mem_append.mpr (Or.inl (List.mem_singleton.mpr rfl))⟩

/-! ## The claims -/

/-- C1: for every non-empty well-formed absolute URL `u` and every integer
`s` in `[128, 1024]`, validating `{ link: u, size: s }` succeeds and
generation returns a success result whose image is exactly `s × s` pixels
(the requested pixel size on both axes). -/
theorem valid_link_and_size_generate_exact_image (u : String) (s : ℤ)
    (hu : isAbsoluteUrl (jsTrim u) = true) (h1 : 128 ≤ s) (h2 : s ≤ 1024) :
    safeParseBody (mkBody (some (Json.str u)) (some (Json.num (s : ℚ))))
        = Except.ok ⟨jsTrim u, some s⟩
      ∧ POST (mkBody (some (Json.str u)) (some (Json.num (s : ℚ))))
        = Response.success (qrToDataURL (jsTrim u) (qrOpts (some s)))
      ∧ (renderImage (jsTrim u) (qrOpts (some s))).width = s.toNat
      ∧ (renderImage (jsTrim u) (qrOpts (some s))).height = s.toNat
      ∧ (s.toNat : ℤ) = s := by
  have hden : ((s : ℚ)).den = 1 := Rat.den_intCast s
  have hmin : ¬((s : ℚ) < 128) := by
    rw [not_lt]
    exact_mod_cast h1
  have hmax : ¬(1024 < (s : ℚ)) := by
    rw [not_lt]
    exact_mod_cast h2
  have hchecks : sizeChecks (s : ℚ) = [] := by
    simp [sizeChecks, hden, hmin, hmax]
  have hsize : checkSize (some (Json.num (s : ℚ))) = .ok (some s) := by
    simp [checkSize, jsToNumber, hchecks, Rat.num_intCast]
  have hlink : checkLink (some (Json.str u)) = .ok (jsTrim u) := by
    simp [checkLink, hu]
  have hparse : safeParseBody (mkBody (some (Json.str u)) (some (Json.num (s : ℚ))))
      = .ok ⟨jsTrim u, some s⟩ := by
    rw [safeParseBody_mkBody, hlink, hsize]; rfl
  have hpost : POST (mkBody (some (Json.str u)) (some (Json.num (s : ℚ))))
      = Response.success (qrToDataURL (jsTrim u) (qrOpts (some s))) := by
    rw [POST_of_parse_ok _ _ hparse]
  exact ⟨hparse, hpost, rfl, rfl, Int.toNat_of_nonneg (le_trans (by norm_num) h1)⟩

/-- C1 witness: the theorem at `u = "https://example.com"`, `s = 256`. -/
theorem valid_link_and_size_generate_exact_image_witness :
    (isAbsoluteUrl (jsTrim "https://example.com") = true
      ∧ (128 : ℤ) ≤ 256 ∧ (256 : ℤ) ≤ 1024)
    ∧ (safeParseBody (mkBody (some (Json.str "https://example.com"))
          (some (Json.num ((256 : ℤ) : ℚ))))
        = Except.ok ⟨jsTrim "https://example.com", some 256⟩
      ∧ POST (mkBody (some (Json.str "https://example.com"))
          (some (Json.num ((256 : ℤ) : ℚ))))
        = Response.success (qrToDataURL (jsTrim "https://example.com") (qrOpts (some 256)))
      ∧ (renderImage (jsTrim "https://example.com") (qrOpts (some 256))).width = (256 : ℤ).toNat
      ∧ (renderImage (jsTrim "https://example.com") (qrOpts (some 256))).height = (256 : ℤ).toNat
      ∧ (((256 : ℤ).toNat : ℤ)) = 256) :=
  ⟨⟨by decide, by decide, by decide⟩,
    valid_link_and_size_generate_exact_image "https://example.com" 256
      (by decide) (by decide) (by decide)⟩

/-- C2: link validation accepts exactly the strings that, after trimming,
parse as an absolute URL (scheme + host); a string that fails the URL
check (including one empty after trimming) produces the `InvalidUrl`
field error keyed on `link`, and no image is produced for such a request,
whatever the size field holds. -/
theorem link_validation_is_exact (u : String) (sz : Option Json)
    (hu : isAbsoluteUrl (jsTrim u) = false) :
    (∀ v : String, isOkB (checkLink (some (Json.str v))) = isAbsoluteUrl (jsTrim v))
    ∧ isAbsoluteUrl (jsTrim "") = false
    ∧ checkLink (some (Json.str u))
        = .error [⟨["link"], urlErrorMessage, "invalid_format"⟩]
    ∧ (POST (mkBody (some (Json.str u)) sz)).isSuccess = false
    ∧ ((POST (mkBody (some (Json.str u)) sz)).fieldMessages "link").isEmpty = false := by
  obtain ⟨e, he, hmem⟩ := parse_error_of_invalid_link u sz hu
  have hpost : POST (mkBody (some (Json.str u)) sz) = zodErrorToResponse e :=
    POST_of_parse_error _ _ he
  refine ⟨?_, by decide, by simp [checkLink, hu], ?_, ?_⟩
  · intro v
    by_cases hv : isAbsoluteUrl (jsTrim v) = true
    · simp [checkLink, hv, isOkB]
    · rw [Bool.not_eq_true] at hv
      simp [checkLink, hv, isOkB]
  · rw [hpost]; rfl
  · rw [hpost]
    exact fieldMessages_of_issue e "link" _ hmem rfl

/-- C2 witness: the theorem at `u = "not a url"` with no size field. -/
theorem link_validation_is_exact_witness :
    isAbsoluteUrl (jsTrim "not a url") = false
    ∧ ((∀ v : String, isOkB (checkLink (some (Json.str v))) = isAbsoluteUrl (jsTrim v))
      ∧ isAbsoluteUrl (jsTrim "") = false
      ∧ checkLink (some (Json.str "not a url"))
          = .error [⟨["link"], urlErrorMessage, "invalid_format"⟩]
      ∧ (POST (mkBody (some (Json.str "not a url")) none)).isSuccess = false
      ∧ ((POST (mkBody (some (Json.str "not a url")) none)).fieldMessages "link").isEmpty
          = false) :=
  ⟨by decide, link_validation_is_exact "not a url" none (by decide)⟩

/-- C3: a provided size that fails numeric coercion, is not an integer, or
is out of `[128, 1024]` fails with `InvalidSize` issues on the `size`
field; an out-of-range value gets the message naming the violated bound
(`Minimum size is 128` / `Maximum size is 1024`); 128 and 1024 themselves
pass, as does omitting the field. -/
theorem size_validation_bounds (q : ℚ)
    (hq : q.den ≠ 1 ∨ q < 128 ∨ 1024 < q) :
    isOkB (checkSize (some (Json.num q))) = false
    ∧ (errIssues (checkSize (some (Json.num q)))).isEmpty = false
    ∧ (∀ i ∈ errIssues (checkSize (some (Json.num q))), i.path = ["size"])
    ∧ (q < 128 → (⟨["size"], "Minimum size is 128", "too_small"⟩ : ZodIssue)
        ∈ errIssues (checkSize (some (Json.num q))))
    ∧ (1024 < q → (⟨["size"], "Maximum size is 1024", "too_big"⟩ : ZodIssue)
        ∈ errIssues (checkSize (some (Json.num q))))
    ∧ checkSize (some (Json.num 128)) = .ok (some 128)
    ∧ checkSize (some (Json.num 1024)) = .ok (some 1024)
    ∧ checkSize (some (Json.str "abc"))
        = .error [⟨["size"], "Size must be a number", "invalid_type"⟩]
    ∧ checkSize none = .ok none := by
  have hne : (sizeChecks q).isEmpty = false := by
    rcases hq with h | h | h
    · exact isEmpty_false_of_mem
        (x := (⟨["size"], "Size must be an integer", "invalid_type"⟩ : ZodIssue))
        (by simp [sizeChecks, h, List.mem_append])
    · exact isEmpty_false_of_mem
        (x := (⟨["size"], "Minimum size is 128", "too_small"⟩ : ZodIssue))
        (by simp [sizeChecks, h, List.mem_append])
    · exact isEmpty_false_of_mem
        (x := (⟨["size"], "Maximum size is 1024", "too_big"⟩ : ZodIssue))
        (by simp [sizeChecks, h, List.mem_append])
  have hcs : checkSize (some (Json.num q)) = .error (sizeChecks q) := by
    simp [checkSize, jsToNumber, hne]
  refine ⟨by rw [hcs]; rfl, by rw [hcs]; exact hne, ?_, ?_, ?_, rfl, rfl, rfl, rfl⟩
  · rw [hcs]
    exact fun i hi => sizeChecks_path q i hi
  · intro h
    rw [hcs]
    simp [errIssues, sizeChecks, h, List.mem_append]
  · intro h
    rw [hcs]
    simp [errIssues, sizeChecks, h, List.mem_append]

/-- C3 witness: the theorem at `q = mkRat 7 2` (the spec's `3.5`), a
non-integer below the minimum. -/
theorem size_validation_bounds_witness :
    ((mkRat 7 2).den ≠ 1 ∨ mkRat 7 2 < 128 ∨ 1024 < mkRat 7 2)
    ∧ (isOkB (checkSize (some (Json.num (mkRat 7 2)))) = false
      ∧ (errIssues (checkSize (some (Json.num (mkRat 7 2))))).isEmpty = false
      ∧ (∀ i ∈ errIssues (checkSize (some (Json.num (mkRat 7 2)))), i.path = ["size"])
      ∧ (mkRat 7 2 < 128 → (⟨["size"], "Minimum size is 128", "too_small"⟩ : ZodIssue)
          ∈ errIssues (checkSize (some (Json.num (mkRat 7 2)))))
      ∧ (1024 < mkRat 7 2 → (⟨["size"], "Maximum size is 1024", "too_big"⟩ : ZodIssue)
          ∈ errIssues (checkSize (some (Json.num (mkRat 7 2)))))
      ∧ checkSize (some (Json.num 128)) = .ok (some 128)
      ∧ checkSize (some (Json.num 1024)) = .ok (some 1024)
      ∧ checkSize (some (Json.str "abc"))
          = .error [⟨["size"], "Size must be a number", "invalid_type"⟩]
      ∧ checkSize none = .ok none) :=
  ⟨Or.inl (by decide), size_validation_bounds (mkRat 7 2) (Or.inl (by decide))⟩

/-- C4: an invalid link together with an invalid size yields one 400
response reporting both fields: the issue list has entries whose joined
paths are `link` and `size`, and the flattened `fieldErrors` map has a
non-empty message list under both keys. -/
theorem both_fields_collected (u : String) (q : ℚ)
    (hu : isAbsoluteUrl (jsTrim u) = false)
    (_hq : q.den = 1) (hrange : q < 128 ∨ 1024 < q) :
    (POST (mkBody (some (Json.str u)) (some (Json.num q)))).status = 400
    ∧ (POST (mkBody (some (Json.str u)) (some (Json.num q)))).isSuccess = false
    ∧ "link" ∈ (POST (mkBody (some (Json.str u)) (some (Json.num q)))).issuePaths
    ∧ "size" ∈ (POST (mkBody (some (Json.str u)) (some (Json.num q)))).issuePaths
    ∧ ((POST (mkBody (some (Json.str u)) (some (Json.num q)))).fieldMessages "link").isEmpty
        = false
    ∧ ((POST (mkBody (some (Json.str u)) (some (Json.num q)))).fieldMessages "size").isEmpty
        = false := by
  have hlink : checkLink (some (Json.str u))
      = .error [⟨["link"], urlErrorMessage, "invalid_format"⟩] := by
    simp [checkLink, hu]
  have hne : (sizeChecks q).isEmpty = false := by
    rcases hrange with h | h
    · exact isEmpty_false_of_mem
        (x := (⟨["size"], "Minimum size is 128", "too_small"⟩ : ZodIssue))
        (by simp [sizeChecks, h, List.mem_append])
    · exact isEmpty_false_of_mem
        (x := (⟨["size"], "Maximum size is 1024", "too_big"⟩ : ZodIssue))
        (by simp [sizeChecks, h, List.mem_append])
  have hcs : checkSize (some (Json.num q)) = .error (sizeChecks q) := by
    simp [checkSize, jsToNumber, hne]
  have hparse : safeParseBody (mkBody (some (Json.str u)) (some (Json.num q)))
      = .error ([⟨["link"], urlErrorMessage, "invalid_format"⟩] ++ sizeChecks q) := by
    rw [safeParseBody_mkBody, hlink, hcs]
    rfl
  have hpost : POST (mkBody (some (Json.str u)) (some (Json.num q)))
      = zodErrorToResponse ([⟨["link"], urlErrorMessage, "invalid_format"⟩] ++ sizeChecks q) :=
    POST_of_parse_error _ _ hparse
  have hsizeIssue : ∃ i ∈ sizeChecks q, i.path = ["size"] := by
    rcases hrange with h | h
    · exact ⟨⟨["size"], "Minimum size is 128", "too_small"⟩,
        by simp [sizeChecks, h, List.mem_append], rfl⟩
    · exact ⟨⟨["size"], "Maximum size is 1024", "too_big"⟩,
        by simp [sizeChecks, h, List.mem_append], rfl⟩
  obtain ⟨iSize, hiMem, hiPath⟩ := hsizeIssue
  have hiMem2 : iSize ∈ [(⟨["link"], urlErrorMessage, "invalid_format"⟩ : ZodIssue)]
      ++ sizeChecks q := List.mem_append.mpr (Or.inr hiMem)
  have hlinkMem : (⟨["link"], urlErrorMessage, "invalid_format"⟩ : ZodIssue)
      ∈ [(⟨["link"], urlErrorMessage, "invalid_format"⟩ : ZodIssue)] ++ sizeChecks q :=
    List.mem_append.mpr (Or.inl (List.mem_singleton.mpr rfl))
  rw [hpost]
  refine ⟨rfl, rfl, ?_, ?_, ?_, ?_⟩
  · simp only [zodErrorToResponse, Response.issuePaths, List.map_map]
    exact List.mem_map.mpr ⟨_, hlinkMem, rfl⟩
  · simp only [zodErrorToResponse, Response.issuePaths, List.map_map]
    refine List.mem_map.mpr ⟨iSize, hiMem2, ?_⟩
    show String.intercalate "." iSize.path = "size"
    rw [hiPath]
    rfl
  · exact fieldMessages_of_issue _ "link" _ hlinkMem rfl
  · refine fieldMessages_of_issue _ "size" iSize hiMem2 ?_
    rw [hiPath]
    rfl

/-- C4 witness: the theorem at `u = ""`, `q = 5000` (the spec's concrete
scenario: empty link plus an oversized size). -/
theorem both_fields_collected_witness :
    (isAbsoluteUrl (jsTrim "") = false ∧ (5000 : ℚ).den = 1
      ∧ ((5000 : ℚ) < 128 ∨ 1024 < (5000 : ℚ)))
    ∧ ((POST (mkBody (some (Json.str "")) (some (Json.num 5000)))).status = 400
      ∧ (POST (mkBody (some (Json.str "")) (some (Json.num 5000)))).isSuccess = false
      ∧ "link" ∈ (POST (mkBody (some (Json.str "")) (some (Json.num 5000)))).issuePaths
      ∧ "size" ∈ (POST (mkBody (some (Json.str "")) (some (Json.num 5000)))).issuePaths
      ∧ ((POST (mkBody (some (Json.str "")) (some (Json.num 5000)))).fieldMessages "link").isEmpty
          = false
      ∧ ((POST (mkBody (some (Json.str "")) (some (Json.num 5000)))).fieldMessages "size").isEmpty
          = false) :=
  ⟨⟨by decide, by decide, Or.inr (by decide)⟩,
    both_fields_collected "" 5000 (by decide) (by decide) (Or.inr (by decide))⟩

/-- C5: a valid link with the size field omitted validates successfully
(size `none`), generation runs at the default width 320, and the produced
image is 320 × 320. -/
theorem omitted_size_defaults_to_320 (u : String)
    (hu : isAbsoluteUrl (jsTrim u) = true) :
    safeParseBody (mkBody (some (Json.str u)) none) = Except.ok ⟨jsTrim u, none⟩
    ∧ POST (mkBody (some (Json.str u)) none)
        = Response.success (qrToDataURL (jsTrim u) (qrOpts none))
    ∧ (qrOpts none).width = 320
    ∧ (renderImage (jsTrim u) (qrOpts none)).width = 320
    ∧ (renderImage (jsTrim u) (qrOpts none)).height = 320 := by
  have hlink : checkLink (some (Json.str u)) = .ok (jsTrim u) := by
    simp [checkLink, hu]
  have hparse : safeParseBody (mkBody (some (Json.str u)) none)
      = .ok ⟨jsTrim u, none⟩ := by
    rw [safeParseBody_mkBody, hlink]; rfl
  have hpost : POST (mkBody (some (Json.str u)) none)
      = Response.success (qrToDataURL (jsTrim u) (qrOpts none)) := by
    rw [POST_of_parse_ok _ _ hparse]
  exact ⟨hparse, hpost, rfl, rfl, rfl⟩

/-- C5 witness: the theorem at `u = "https://example.com"`. -/
theorem omitted_size_defaults_to_320_witness :
    isAbsoluteUrl (jsTrim "https://example.com") = true
    ∧ (safeParseBody (mkBody (some (Json.str "https://example.com")) none)
        = Except.ok ⟨jsTrim "https://example.com", none⟩
      ∧ POST (mkBody (some (Json.str "https://example.com")) none)
          = Response.success (qrToDataURL (jsTrim "https://example.com") (qrOpts none))
      ∧ (qrOpts none).width = 320
      ∧ (renderImage (jsTrim "https://example.com") (qrOpts none)).width = 320
      ∧ (renderImage (jsTrim "https://example.com") (qrOpts none)).height = 320) :=
  ⟨by decide, omitted_size_defaults_to_320 "https://example.com" (by decide)⟩

/-- C6: every successful generation answers with the JSON object
`{ dataUrl: <string> }`, and the string begins with the prefix
`data:image/png;base64,`. -/
theorem success_response_shape (body : Json) : successShape (POST body) := by
  unfold POST POSTwith
  cases hp : safeParseBody body with
  | error e => trivial
  | ok p => exact ⟨rfl, _, rfl⟩

/-- C7: the QR encoding parameters the handler passes to the generator are
fixed constants: error-correction level `M` and quiet-zone margin 2,
whatever the validated size and text are; only the width comes from the
client (defaulting to 320). -/
theorem encoding_params_fixed (size : Option ℤ) (text : String) :
    (qrOpts size).errorCorrectionLevel = ECLevel.M
    ∧ (qrOpts size).margin = 2
    ∧ (qrOpts size).width = (size.getD 320).toNat
    ∧ (encodeSymbol text (qrOpts size).errorCorrectionLevel).ecLevel = ECLevel.M :=
  ⟨rfl, rfl, rfl, rfl⟩

/-- C8: when validation has succeeded and the generator throws, the
handler answers the generic 500 `Failed to generate QR code` response,
which is a different status than the 400 validation response and does not
carry the field-error shape (no `fieldErrors` or `issues` keys); no
success payload is produced. -/
theorem generation_failure_yields_500 (gen : String → QROptions → Except Unit String)
    (body : Json) (p : ParsedBody)
    (hp : safeParseBody body = .ok p)
    (hfail : gen p.link (qrOpts p.size) = .error ()) :
    POSTwith gen body = Response.serverError
    ∧ Response.serverError.status = 500
    ∧ (Response.validationError [] []).status = 400
    ∧ Response.serverError.toJsonBody
        = Json.obj [("message", Json.str "Failed to generate QR code")]
    ∧ Response.serverError.toJsonBody.getField "fieldErrors" = none
    ∧ Response.serverError.toJsonBody.getField "issues" = none
    ∧ Response.serverError.isSuccess = false := by
  refine ⟨?_, rfl, rfl, rfl, rfl, rfl, rfl⟩
  simp [POSTwith, hp, hfail]

/-- C8 witness: the theorem at a generator that always throws and the body
`{ link: "https://example.com" }`. -/
theorem generation_failure_yields_500_witness :
    safeParseBody (mkBody (some (Json.str "https://example.com")) none)
        = .ok (⟨"https://example.com", none⟩ : ParsedBody)
    ∧ (POSTwith (fun _ _ => .error ()) (mkBody (some (Json.str "https://example.com")) none)
          = Response.serverError
      ∧ Response.serverError.status = 500
      ∧ (Response.validationError [] []).status = 400
      ∧ Response.serverError.toJsonBody
          = Json.obj [("message", Json.str "Failed to generate QR code")]
      ∧ Response.serverError.toJsonBody.getField "fieldErrors" = none
      ∧ Response.serverError.toJsonBody.getField "issues" = none
      ∧ Response.serverError.isSuccess = false) :=
  ⟨rfl, generation_failure_yields_500 (fun _ _ => .error ())
    (mkBody (some (Json.str "https://example.com")) none)
    ⟨"https://example.com", none⟩ rfl rfl⟩

/-- C9: the handler is a pure, stateless function of the request body:
the response does not depend on the ambient server state, the state is
left unchanged, and running the handler twice on the same body (the
second run starting from the state the first one left) yields the same
observable response. -/
theorem handler_stateless (σ : Type) (st st2 : σ) (body : Json) :
    (serve st body).1 = (serve st2 body).1
    ∧ (serve st body).2 = st
    ∧ (serve (serve st body).2 body).1 = (serve st body).1 :=
  ⟨rfl, rfl, rfl⟩

/-- C10: a request whose body fails JSON parsing is treated as `null`,
which fails validation: the result is the structured 400 `Validation
error` response carrying `issues` and `fieldErrors`, not a success and
not the 500 server-fault response. -/
theorem unparseable_body_is_validation_error :
    handleRequest none
        = zodErrorToResponse
            [⟨[], "Invalid input: expected object, received null", "invalid_type"⟩]
    ∧ (handleRequest none).status = 400
    ∧ (handleRequest none).isSuccess = false
    ∧ (handleRequest none).toJsonBody.getField "message"
        = some (Json.str "Validation error")
    ∧ (handleRequest none).toJsonBody.getField "issues"
        = some (Json.arr [Json.obj
            [("path", Json.str ""),
             ("message", Json.str "Invalid input: expected object, received null"),
             ("code", Json.str "invalid_type")]])
    ∧ (handleRequest none).toJsonBody.getField "fieldErrors" = some (Json.obj []) :=
  ⟨rfl, rfl, rfl, rfl, rfl, rfl⟩

end QrGen
